import Mathlib

/-!
Shallow embedding of the AI-provider gateway in
`backend/app/services/alleai_service.py` (class `AlleAIService`), together with
proofs settling the frozen claims about it.

Python strings are modelled as Lean `String` / `List Char`; Python dicts coming
from JSON are modelled as insertion-ordered association lists; Python
exceptions are modelled with `Except` / `Option`.  ASCII-only models are used
for the Python character operations `lower` / `upper` / `islower` / `title`
(all text handled by the service is ASCII).  `json.loads` is modelled by an
executable JSON parser handling objects, arrays, strings with the standard
single-character escapes, integers, booleans and null, up to nesting depth 4
(no floats, no unicode escapes); every payload the service manipulates in the
claims lies inside this fragment, and no theorem below depends on the parser
outside it.
-/

namespace Phamiq

/-- Opening brace character (written numerically throughout). -/
def lbrace : Char := Char.ofNat 123

/-- Closing brace character. -/
def rbrace : Char := Char.ofNat 125

/-- Double-quote character. -/
def qChar : Char := Char.ofNat 34

/-- Backslash character. -/
def bslash : Char := Char.ofNat 92

/-- Backtick character. -/
def btick : Char := Char.ofNat 96

/-- The characters Python `str.strip()` and the regex class `\s` treat as
whitespace (ASCII fragment): space, tab, newline, carriage return, vertical
tab, form feed. -/
def isPyWs (c : Char) : Bool :=
  c = ' ' || c = '\t' || c = '\n' || c = '\r' || c = Char.ofNat 11 || c = Char.ofNat 12

/-- The whitespace characters the JSON grammar (and `json.loads`) skips. -/
def isJsonWs (c : Char) : Bool :=
  c = ' ' || c = '\t' || c = '\n' || c = '\r'

/-- Model of Python `str.strip()` on a character list: drop `isPyWs`
characters from both ends. -/
def pyStripL (l : List Char) : List Char :=
  ((l.dropWhile isPyWs).reverse.dropWhile isPyWs).reverse

/-- Model of Python `str.strip()`. -/
def pyStrip (s : String) : String :=
  String.mk (pyStripL s.data)

/-- Model of Python `str.replace(pat, rep)` (all occurrences, scanning left to
right), with fuel; the initial fuel is the length of the list, which bounds
the number of scan steps.  `pat` is assumed non-empty (as in the source, where
the patterns are the code-fence markers). -/
def replaceAllAux (pat rep : List Char) : Nat → List Char → List Char
  | 0, l => l
  | _, [] => []
  | fuel + 1, c :: r =>
    if pat.isPrefixOf (c :: r) then rep ++ replaceAllAux pat rep fuel ((c :: r).drop pat.length)
    else c :: replaceAllAux pat rep fuel r

/-- Model of Python `str.replace(pat, rep)`. -/
def replaceAll (pat rep l : List Char) : List Char :=
  replaceAllAux pat rep l.length l

/-- Substring test on character lists: model of Python `needle in haystack`
for strings. -/
def containsSubL (needle : List Char) : List Char → Bool
  | [] => needle.isEmpty
  | c :: r => needle.isPrefixOf (c :: r) || containsSubL needle r

/-- Model of Python `needle in haystack` for strings. -/
def containsSubS (needle haystack : String) : Bool :=
  containsSubL needle.data haystack.data

/-- ASCII model of Python `str.lower()` on one character. -/
def asciiLower (c : Char) : Char :=
  if 'A' ≤ c ∧ c ≤ 'Z' then Char.ofNat (c.toNat + 32) else c

/-- ASCII model of Python `str.lower()`. -/
def pyLowerS (s : String) : String :=
  String.mk (s.data.map asciiLower)

/-- The twenty-six ASCII lowercase letters, as a table so that proofs can do
plain case analysis without character arithmetic. -/
def lowerLetters : List Char :=
  ['a', 'b', 'c', 'd', 'e', 'f', 'g', 'h', 'i', 'j', 'k', 'l', 'm',
   'n', 'o', 'p', 'q', 'r', 's', 't', 'u', 'v', 'w', 'x', 'y', 'z']

/-- ASCII model of Python `str.islower()` on one character. -/
def pyIsLower (c : Char) : Bool :=
  decide (c ∈ lowerLetters)

/-- ASCII model of Python `str.upper()` on one character (table form, matching
`pyIsLower`). -/
def asciiUpper (c : Char) : Char :=
  match c with
  | 'a' => 'A' | 'b' => 'B' | 'c' => 'C' | 'd' => 'D' | 'e' => 'E' | 'f' => 'F'
  | 'g' => 'G' | 'h' => 'H' | 'i' => 'I' | 'j' => 'J' | 'k' => 'K' | 'l' => 'L'
  | 'm' => 'M' | 'n' => 'N' | 'o' => 'O' | 'p' => 'P' | 'q' => 'Q' | 'r' => 'R'
  | 's' => 'S' | 't' => 'T' | 'u' => 'U' | 'v' => 'V' | 'w' => 'W' | 'x' => 'X'
  | 'y' => 'Y' | 'z' => 'Z'
  | _ => c

/-- ASCII model of Python `str.isalpha()` on one character (the cased
characters relevant to `str.title()`). -/
def pyIsAlpha (c : Char) : Bool :=
  ('a' ≤ c ∧ c ≤ 'z') || ('A' ≤ c ∧ c ≤ 'Z')

/-- Helper for `pyTitle`: the Boolean records whether the previous character
was cased (alphabetic). -/
def pyTitleAux : Bool → List Char → List Char
  | _, [] => []
  | prevAlpha, c :: r =>
    if pyIsAlpha c then
      (if prevAlpha then asciiLower c else asciiUpper c) :: pyTitleAux true r
    else c :: pyTitleAux false r

/-- ASCII model of Python `str.title()`: the first cased character of every
maximal cased run is uppercased, the rest lowercased. -/
def pyTitle (s : String) : String :=
  String.mk (pyTitleAux false s.data)

/-- Replace every `'_'` by `' '`: model of the `key.replace('_', ' ')` step of
`_clean_response`. -/
def underscoreToSpace (s : String) : String :=
  String.mk (s.data.map fun c => if c = '_' then ' ' else c)

/-- First occurrence split: `splitAtChar t l = some (before, after)` where
`l = before ++ t :: after` and `t ∉ before`. -/
def splitAtChar (t : Char) : List Char → Option (List Char × List Char)
  | [] => none
  | c :: r =>
    if c = t then some ([], r)
    else (splitAtChar t r).map fun p => (c :: p.1, p.2)

/-- Suffix after the first occurrence of `t`, if any. -/
def splitAfterChar (t : Char) (l : List Char) : Option (List Char) :=
  (splitAtChar t l).map (·.2)

/-- Last occurrence split: `splitLastChar t l = some (before, after)` where
`l = before ++ t :: after` and `t ∉ after`. -/
def splitLastChar (t : Char) (l : List Char) : Option (List Char × List Char) :=
  match l.reverse.dropWhile (fun c => ¬ c = t) with
  | [] => none
  | _ :: beforeRev =>
    some (beforeRev.reverse, (l.reverse.takeWhile (fun c => ¬ c = t)).reverse)

/-- Concatenate a list of strings with a separator: model of
Python `sep.join(items)`. -/
def joinWith (sep : String) : List String → String
  | [] => ""
  | [x] => x
  | x :: y :: r => x ++ sep ++ joinWith sep (y :: r)

/-- Decoded JSON values, the model of what `json.loads` / `response.json()`
produce: Python dicts are insertion-ordered association lists. -/
inductive JVal : Type
  | null : JVal
  | bool : Bool → JVal
  | num : Int → JVal
  | str : String → JVal
  | arr : List JVal → JVal
  | obj : List (String × JVal) → JVal

/-- JSON string escapes handled by the parser model. -/
def escapeChar (c : Char) : Option Char :=
  if c = qChar then some qChar
  else if c = bslash then some bslash
  else if c = '/' then some '/'
  else if c = 'n' then some '\n'
  else if c = 't' then some '\t'
  else if c = 'r' then some '\r'
  else if c = 'b' then some (Char.ofNat 8)
  else if c = 'f' then some (Char.ofNat 12)
  else none

/-- Parse the body of a JSON string (the opening quote already consumed),
returning the decoded text and the rest of the input.  Raw control characters
are rejected, as `json.loads` does in strict mode. -/
def parseStringBody : List Char → Option (String × List Char)
  | [] => none
  | c :: r =>
    if c = qChar then some ("", r)
    else if c = bslash then
      match r with
      | e :: r2 =>
        match escapeChar e with
        | some ec => (parseStringBody r2).map fun p => (String.mk (ec :: p.1.data), p.2)
        | none => none
      | [] => none
    else if c.toNat < 32 then none
    else (parseStringBody r).map fun p => (String.mk (c :: p.1.data), p.2)

/-- Digits of a JSON integer (leading zeros rejected, as in `json.loads`). -/
def parseNatDigits (l : List Char) : Option (Nat × List Char) :=
  let digits := l.takeWhile Char.isDigit
  let rest := l.dropWhile Char.isDigit
  match digits with
  | [] => none
  | d :: ds =>
    if d = '0' ∧ ds ≠ [] then none
    else some ((d :: ds).foldl (fun a c => a * 10 + (c.toNat - 48)) 0, rest)

/-- True when the rest of the input continues a number with a float or
exponent part; the parser model rejects such numbers (no claim exercises
them). -/
def startsFloatTail : List Char → Bool
  | [] => false
  | c :: _ => c = '.' || c = 'e' || c = 'E'

/-- Parse a JSON atom (string, integer, `true`, `false`, `null`); the input is
already whitespace-skipped. -/
def parseAtom : List Char → Option (JVal × List Char)
  | [] => none
  | c :: r =>
    if c = qChar then (parseStringBody r).map fun p => (JVal.str p.1, p.2)
    else if c = 't' then
      match r with
      | 'r' :: 'u' :: 'e' :: r2 => some (JVal.bool true, r2)
      | _ => none
    else if c = 'f' then
      match r with
      | 'a' :: 'l' :: 's' :: 'e' :: r2 => some (JVal.bool false, r2)
      | _ => none
    else if c = 'n' then
      match r with
      | 'u' :: 'l' :: 'l' :: r2 => some (JVal.null, r2)
      | _ => none
    else if c = '-' then
      match parseNatDigits r with
      | some (n, r2) => if startsFloatTail r2 then none else some (JVal.num (-(n : Int)), r2)
      | none => none
    else if c.isDigit then
      match parseNatDigits (c :: r) with
      | some (n, r2) => if startsFloatTail r2 then none else some (JVal.num (n : Int), r2)
      | none => none
    else none

/-- Member loop of a JSON object, parameterised by the parser `sub` used for
the member values; fuel bounds the number of members. -/
def objLoop (sub : List Char → Option (JVal × List Char)) :
    Nat → List Char → List (String × JVal) → Option (List (String × JVal) × List Char)
  | 0, _, _ => none
  | fuel + 1, l, acc =>
    match l.dropWhile isJsonWs with
    | c :: r =>
      if c = qChar then
        match parseStringBody r with
        | some (k, r2) =>
          match r2.dropWhile isJsonWs with
          | ':' :: r3 =>
            match sub r3 with
            | some (v, r4) =>
              match r4.dropWhile isJsonWs with
              | ',' :: r5 => objLoop sub fuel r5 (acc ++ [(k, v)])
              | c5 :: r5 => if c5 = rbrace then some (acc ++ [(k, v)], r5) else none
              | [] => none
            | none => none
          | _ => none
        | none => none
      else none
    | [] => none

/-- Element loop of a JSON array, parameterised by the element parser. -/
def arrLoop (sub : List Char → Option (JVal × List Char)) :
    Nat → List Char → List JVal → Option (List JVal × List Char)
  | 0, _, _ => none
  | fuel + 1, l, acc =>
    match sub l with
    | some (v, r) =>
      match r.dropWhile isJsonWs with
      | ',' :: r2 => arrLoop sub fuel r2 (acc ++ [v])
      | c2 :: r2 => if c2 = ']' then some (acc ++ [v], r2) else none
      | [] => none
    | none => none

/-- JSON value parser, indexed by the residual nesting depth for objects and
arrays; atoms parse at any depth. -/
def parseLevel : Nat → List Char → Option (JVal × List Char)
  | 0, l => parseAtom (l.dropWhile isJsonWs)
  | depth + 1, l =>
    match l.dropWhile isJsonWs with
    | c :: r =>
      if c = lbrace then
        match r.dropWhile isJsonWs with
        | c2 :: r2 =>
          if c2 = rbrace then some (JVal.obj [], r2)
          else
            (objLoop (fun s => parseLevel depth s) ((c2 :: r2).length) (c2 :: r2) []).map
              fun p => (JVal.obj p.1, p.2)
        | [] => none
      else if c = '[' then
        match r.dropWhile isJsonWs with
        | c2 :: r2 =>
          if c2 = ']' then some (JVal.arr [], r2)
          else
            (arrLoop (fun s => parseLevel depth s) ((c2 :: r2).length) (c2 :: r2) []).map
              fun p => (JVal.arr p.1, p.2)
        | [] => none
      else parseAtom (c :: r)
    | [] => none

/-- Model of `json.loads` on a character list: a full parse of the whole
input (trailing whitespace allowed), up to nesting depth 4. -/
def parseJsonL (l : List Char) : Option JVal :=
  match parseLevel 4 l with
  | some (v, rest) => if (rest.dropWhile isJsonWs).isEmpty then some v else none
  | none => none

/-- Model of `json.loads`. -/
def parseJson (s : String) : Option JVal :=
  parseJsonL s.data

/-- Integer rendering as `str(int)` produces it. -/
def intStr (n : Int) : String :=
  if n < 0 then "-" ++ toString n.natAbs else toString n.natAbs

/-- Model of Python `str(value)` (and, behind the Boolean flag, of the `repr`
used for values nested inside a dict or list); fuel bounds the nesting depth,
and any depth at least that of the value gives the same result. -/
def pyStrF : Nat → Bool → JVal → String
  | _, q, JVal.str s => if q then "\x27" ++ s ++ "\x27" else s
  | _, _, JVal.num n => intStr n
  | _, _, JVal.bool true => "True"
  | _, _, JVal.bool false => "False"
  | _, _, JVal.null => "None"
  | 0, _, JVal.obj _ => ""
  | 0, _, JVal.arr _ => ""
  | fuel + 1, _, JVal.obj kvs =>
    String.mk [lbrace] ++
      joinWith ", " (kvs.map fun kv => "\x27" ++ kv.1 ++ "\x27: " ++ pyStrF fuel true kv.2) ++
      String.mk [rbrace]
  | fuel + 1, _, JVal.arr l =>
    "[" ++ joinWith ", " (l.map fun v => pyStrF fuel true v) ++ "]"

/-- Model of Python `str(value)` as used in the f-strings of
`_clean_response`; depth 8 covers anything the depth-4 JSON parser can
produce. -/
def pyStr (v : JVal) : String :=
  pyStrF 8 false v

/-- Lookup in an insertion-ordered association list (Python `d.get(k)` /
`d[k]` on dicts decoded from JSON). -/
def lookupKV (k : String) : List (String × JVal) → Option JVal
  | [] => none
  | (k', v) :: r => if k' = k then some v else lookupKV k r

/-- Model of Python `d[k] = v` on a dict: overwrite in place, or append a new
key at the end (insertion order). -/
def setKV (k : String) (v : JVal) : List (String × JVal) → List (String × JVal)
  | [] => [(k, v)]
  | (k', v') :: r => if k' = k then (k', v) :: r else (k', v') :: setKV k v r

/-- Python truthiness of a decoded JSON value. -/
def jvTruthy : JVal → Bool
  | JVal.null => false
  | JVal.bool b => b
  | JVal.num n => n ≠ 0
  | JVal.str s => ¬ s.isEmpty
  | JVal.arr l => ¬ l.isEmpty
  | JVal.obj kvs => ¬ kvs.isEmpty

/-- Model of Python `needle in container` for a decoded JSON value: key test
on dicts, substring test on strings, element-equality test on lists
(a string element equal to `needle`), and a `TypeError` otherwise. -/
def pyContains (needle : String) : JVal → Except String Bool
  | JVal.obj kvs => Except.ok (kvs.any fun kv => kv.1 = needle)
  | JVal.str s => Except.ok (containsSubS needle s)
  | JVal.arr l =>
    Except.ok (l.any fun v => match v with | JVal.str s => s = needle | _ => false)
  | _ => Except.error "TypeError: argument of type is not iterable"

/-- One key/value pair of the professional rendering in `_clean_response`
(lines 362-373 of the source): bolded title-cased label, nested dicts and
lists as indented sub-lists. -/
def renderKV (k : String) (v : JVal) : List String :=
  match v with
  | JVal.obj sub =>
    ("**" ++ pyTitle (underscoreToSpace k) ++ ":**") ::
      sub.map fun kv => "  - " ++ pyTitle (underscoreToSpace kv.1) ++ ": " ++ pyStr kv.2
  | JVal.arr items =>
    ("**" ++ pyTitle (underscoreToSpace k) ++ ":**") ::
      items.map fun it => "  - " ++ pyStr it
  | _ => ["**" ++ pyTitle (underscoreToSpace k) ++ ":** " ++ pyStr v]

/-- The full rendering `"\n".join(lines)` of a parsed JSON object. -/
def renderObj (kvs : List (String × JVal)) : String :=
  joinWith "\n" (kvs.foldr (fun kv acc => renderKV kv.1 kv.2 ++ acc) [])

/-- Model of `re.sub` for a pattern `op[^cl]*cl` (used with braces and
brackets): scanning left to right, each occurrence of `op` followed later by a
`cl` is removed together with everything up to and including the first such
`cl`; an `op` with no later `cl` is kept.  Fuel bounds the number of scan
steps (each step consumes at least one character). -/
def removeSpansAux (op cl : Char) : Nat → List Char → List Char
  | 0, l => l
  | _, [] => []
  | fuel + 1, c :: r =>
    if c = op then
      match splitAfterChar cl r with
      | some rest => removeSpansAux op cl fuel rest
      | none => c :: removeSpansAux op cl fuel r
    else c :: removeSpansAux op cl fuel r

/-- `re.sub(r'\{[^}]*\}', '', -)`. -/
def removeBraceSpans (l : List Char) : List Char :=
  removeSpansAux lbrace rbrace l.length l

/-- `re.sub(r'\[[^\]]*\]', '', -)`. -/
def removeBracketSpans (l : List Char) : List Char :=
  removeSpansAux '[' ']' l.length l

/-- Attempt to match the tail of the pattern `"[^"]*":\s*"[^"]*"` right after
an opening quote; returns the input remaining after the full match. -/
def tryQuotedPair (r : List Char) : Option (List Char) :=
  match splitAtChar qChar r with
  | none => none
  | some (_, a1) =>
    match a1 with
    | ':' :: a2 =>
      match a2.dropWhile isPyWs with
      | c :: a4 => if c = qChar then splitAfterChar qChar a4 else none
      | [] => none
    | _ => none

/-- Model of `re.sub(r'"[^"]*":\s*"[^"]*"', '', -)`: at every quote, try the
full quoted key/value pattern; on success remove it and continue after it, on
failure keep the quote and continue at the next character. -/
def removeQuotedPairsAux : Nat → List Char → List Char
  | 0, l => l
  | _, [] => []
  | fuel + 1, c :: r =>
    if c = qChar then
      match tryQuotedPair r with
      | some rest => removeQuotedPairsAux fuel rest
      | none => c :: removeQuotedPairsAux fuel r
    else c :: removeQuotedPairsAux fuel r

/-- `re.sub(r'"[^"]*":\s*"[^"]*"', '', -)`. -/
def removeQuotedPairs (l : List Char) : List Char :=
  removeQuotedPairsAux l.length l

/-- Model of `re.sub(r'\n\s*\n\s*\n', '\n\n', -)`: at a newline opening a
maximal whitespace run containing at least three newlines, the (greedy) match
extends to the last newline of the run and is replaced by two newlines; the
trailing non-newline whitespace of the run is rescanned. -/
def collapseNewlinesAux : Nat → List Char → List Char
  | 0, l => l
  | _, [] => []
  | fuel + 1, c :: r =>
    if c = '\n' then
      let run := (c :: r).takeWhile isPyWs
      let rest := (c :: r).dropWhile isPyWs
      if 3 ≤ run.count '\n' then
        '\n' :: '\n' ::
          collapseNewlinesAux fuel ((run.reverse.takeWhile fun x => ¬ x = '\n').reverse ++ rest)
      else c :: collapseNewlinesAux fuel r
    else c :: collapseNewlinesAux fuel r

/-- `re.sub(r'\n\s*\n\s*\n', '\n\n', -)`. -/
def collapseNewlines (l : List Char) : List Char :=
  collapseNewlinesAux l.length l

/-- Model of `re.sub(r'^\s+|\s+$', '', -, flags=re.MULTILINE)`.  The Boolean
tracks whether the current scan position is a line start.  At a line start,
`^\s+` greedily removes the whole whitespace run.  Otherwise `\s+$` matches
the longest whitespace stretch whose end position sits at a newline (the last
newline of the run at offset at least one) or at the end of the input; the
newline itself is rescanned. -/
def stripLinesAux : Nat → Bool → List Char → List Char
  | 0, _, l => l
  | _, _, [] => []
  | fuel + 1, lineStart, c :: r =>
    if isPyWs c then
      let run := (c :: r).takeWhile isPyWs
      let rest := (c :: r).dropWhile isPyWs
      if lineStart then
        stripLinesAux fuel (run.getLast? = some '\n') rest
      else
        match rest with
        | [] => []
        | _ :: _ =>
          match splitLastChar '\n' run with
          | some (before, after) =>
            if before.isEmpty then c :: stripLinesAux fuel (c = '\n') r
            else stripLinesAux fuel (before.getLast? = some '\n') ('\n' :: after ++ rest)
          | none => c :: stripLinesAux fuel (c = '\n') r
    else c :: stripLinesAux fuel false r

/-- `re.sub(r'^\s+|\s+$', '', -, flags=re.MULTILINE)` (position 0 is a line
start). -/
def stripLines (l : List Char) : List Char :=
  stripLinesAux l.length true l

/-- Model of `if text and text[0].islower(): text = text[0].upper() + text[1:]`. -/
def capFirstL : List Char → List Char
  | [] => []
  | c :: r => if pyIsLower c then asciiUpper c :: r else c :: r

/-- Steps 5-10 of `_clean_response` (source lines 377-386): the four regex
substitutions followed by the first-character capitalisation. -/
def postCleanL (l : List Char) : List Char :=
  capFirstL (stripLines (collapseNewlines (removeQuotedPairs
    (removeBracketSpans (removeBraceSpans l)))))

/-- The code-fence marker followed by `json`. -/
def codeFenceJson : List Char := [btick, btick, btick, 'j', 's', 'o', 'n']

/-- The bare code-fence marker. -/
def codeFence : List Char := [btick, btick, btick]

/-- Model of `AlleAIService._clean_response` (source lines 346-386) on
character lists: empty-falsy guard, strip, code-fence removal and re-strip,
professional rendering of a string that is syntactically a JSON object, and
otherwise the residual-artifact removal pipeline with final
capitalisation. -/
def clean_responseL (l : List Char) : List Char :=
  if l.isEmpty then []
  else
    let t1 := pyStripL l
    let t2 := pyStripL (replaceAll codeFence [] (replaceAll codeFenceJson [] t1))
    if t2.head? = some lbrace ∧ t2.getLast? = some rbrace then
      match parseJsonL t2 with
      | some (JVal.obj kvs) => (renderObj kvs).data
      | _ => postCleanL t2
    else postCleanL t2

/-- Model of `AlleAIService._clean_response`. -/
def clean_response (s : String) : String :=
  String.mk (clean_responseL s.data)

/-- Canned advisory for the disease/sick/problem keyword group (source line 157). -/
def disease_response : String :=
  "I understand you\x27re dealing with plant health issues. Here are some general steps you can take:\n\n1. **Isolate affected plants** to prevent the problem from spreading to healthy plants\n2. **Remove and destroy severely infected parts** - this helps stop the spread\n3. **Improve air circulation** around your plants by ensuring proper spacing\n4. **Avoid overhead watering** which can spread diseases\n5. **Use clean tools** when working with different plants\n\nFor more specific advice, I\x27d need to know what type of plant you\x27re working with and what symptoms you\x27re seeing. Could you tell me more about your specific situation?"

/-- Canned advisory for the soil/fertilizer/nutrient keyword group (source line 160). -/
def soil_response : String :=
  "Soil health is crucial for plant growth! Here are some key points:\n\n• **Test your soil** to understand its current nutrient levels\n• **Add organic matter** like compost to improve soil structure\n• **Use balanced fertilizers** based on your soil test results\n• **Consider crop rotation** to maintain soil health\n• **Monitor pH levels** - most plants prefer slightly acidic to neutral soil\n\nWhat type of soil are you working with, and what are you trying to grow?"

/-- Canned advisory for the water/irrigation keyword group (source line 163). -/
def water_response : String :=
  "Proper watering is essential for plant health! Here are some tips:\n\n• **Water deeply but less frequently** to encourage deep root growth\n• **Water early in the morning** to reduce evaporation and disease risk\n• **Check soil moisture** before watering - stick your finger in the soil\n• **Use mulch** to retain soil moisture\n• **Avoid overwatering** which can cause root rot\n\nWhat\x27s your current watering schedule, and are you seeing any specific issues?"

/-- Canned advisory for the pest/insect/bug keyword group (source line 166). -/
def pest_response : String :=
  "Pest management can be challenging! Here\x27s a balanced approach:\n\n• **Identify the pest first** - this helps determine the best control method\n• **Start with cultural controls** like removing affected plants\n• **Use beneficial insects** when possible\n• **Consider organic options** like neem oil before chemical pesticides\n• **Monitor regularly** to catch problems early\n\nCan you describe what pests you\x27re seeing and on what plants?"

/-- Canned advisory for the treatment/cure/fix keyword group (source line 169). -/
def treatment_response : String :=
  "For plant treatment, here\x27s a systematic approach:\n\n1. **Identify the problem** - disease, pest, or environmental issue\n2. **Choose appropriate treatment** - organic or chemical options\n3. **Apply correctly** - follow label instructions and timing\n4. **Monitor results** - watch for improvement or side effects\n5. **Prevent recurrence** - address underlying causes\n\nWhat specific treatment are you considering, and what problem are you trying to solve?"

/-- Canned advisory for the prevent/avoid keyword group (source line 172). -/
def prevent_response : String :=
  "Prevention is always better than cure! Here are key prevention strategies:\n\n• **Choose resistant varieties** when available\n• **Practice crop rotation** to break disease cycles\n• **Maintain good spacing** for air circulation\n• **Use clean tools and equipment**\n• **Monitor regularly** for early detection\n• **Keep garden clean** - remove debris and weeds\n\nWhat specific problem are you trying to prevent?"

/-- Canned advisory for the organic/natural keyword group (source line 175). -/
def organic_response : String :=
  "Organic solutions are great for sustainable farming! Here are some options:\n\n• **Neem oil** - effective against many pests and diseases\n• **Baking soda spray** - helps with fungal issues\n• **Beneficial insects** - ladybugs, lacewings, etc.\n• **Compost tea** - boosts plant immunity\n• **Crop rotation** - naturally breaks pest cycles\n• **Companion planting** - some plants protect others\n\nWhat specific organic solution are you interested in?"

/-- Generic capability-overview message returned when no keyword group matches (source line 178). -/
def generic_capability_response : String :=
  "I\x27m here to help with your agricultural questions! I can assist with plant diseases, soil health, pest management, irrigation, and general farming practices.\n\nWhat specific agricultural challenge are you facing today? I\x27d be happy to provide some practical advice based on your situation. You can ask me about:\n\n• Disease identification and treatment\n• Soil health and fertilization\n• Pest management strategies\n• Watering and irrigation\n• Organic farming methods\n• Crop management tips"

/-- Keyword tests of `_get_fallback_response`, on the lowercased message. -/
def kwDisease (ml : String) : Bool :=
  containsSubS "disease" ml || containsSubS "sick" ml || containsSubS "problem" ml

/-- Soil group keyword test. -/
def kwSoil (ml : String) : Bool :=
  containsSubS "soil" ml || containsSubS "fertilizer" ml || containsSubS "nutrient" ml

/-- Water group keyword test. -/
def kwWater (ml : String) : Bool :=
  containsSubS "water" ml || containsSubS "irrigation" ml

/-- Pest group keyword test. -/
def kwPest (ml : String) : Bool :=
  containsSubS "pest" ml || containsSubS "insect" ml || containsSubS "bug" ml

/-- Treatment group keyword test. -/
def kwTreatment (ml : String) : Bool :=
  containsSubS "treatment" ml || containsSubS "cure" ml || containsSubS "fix" ml

/-- Prevention group keyword test. -/
def kwPrevent (ml : String) : Bool :=
  containsSubS "prevent" ml || containsSubS "avoid" ml

/-- Organic group keyword test. -/
def kwOrganic (ml : String) : Bool :=
  containsSubS "organic" ml || containsSubS "natural" ml

/-- Model of `AlleAIService._get_fallback_response` (source lines 151-178):
lowercase the message and return the canned text of the first keyword group
that matches, in the fixed source order, or the generic capability overview
when none does. -/
def get_fallback_response (user_message : String) : String :=
  if kwDisease (pyLowerS user_message) then disease_response
  else if kwSoil (pyLowerS user_message) then soil_response
  else if kwWater (pyLowerS user_message) then water_response
  else if kwPest (pyLowerS user_message) then pest_response
  else if kwTreatment (pyLowerS user_message) then treatment_response
  else if kwPrevent (pyLowerS user_message) then prevent_response
  else if kwOrganic (pyLowerS user_message) then organic_response
  else generic_capability_response

/-- A conversation turn as the service passes it around: a `role`/`content`
pair (the dicts built in `chat_with_ai` and `get_disease_recommendations`). -/
structure Message where
  role : String
  content : String

/-- Model of the loops `for msg in reversed(messages): if msg["role"] ==
"user": ...` (source lines 254-259, 327-331, 339-343): the content of the
last user-role message, defaulting to the empty string. -/
def last_user_content (messages : List Message) : String :=
  match messages.reverse.find? fun m => m.role = "user" with
  | some m => m.content
  | none => ""

/-- An HTTP response as the transport sees it: status code and raw body text
(the decoded JSON body is recovered with `parseJson` where the code calls
`response.json()`). -/
structure HttpResp where
  status : Nat
  body : String

/-- The exception classes the `try` block of `_make_alleai_request`
distinguishes: `aiohttp.ClientError`, `json.JSONDecodeError`, and every other
`Exception`. -/
inductive PyErr : Type
  | clientError : String → PyErr
  | jsonDecodeError : String → PyErr
  | exc : String → PyErr

/-- Truthy lookup, model of `response_data.get(k)` used in a Boolean context:
the value when the key is present and truthy, otherwise nothing. -/
def lookupTruthy (kvs : List (String × JVal)) (k : String) : Option JVal :=
  match lookupKV k kvs with
  | some v => if jvTruthy v then some v else none
  | none => none

/-- First model response of the nested provider shape that is a string with
non-empty strip (the `for model_name, response_text in
model_responses.items()` loop, source lines 293-296). -/
def firstNonEmptyStr : List (String × JVal) → Option String
  | [] => none
  | (_, JVal.str s) :: r => if (pyStripL s.data).isEmpty then firstNonEmptyStr r else some s
  | _ :: r => firstNonEmptyStr r

/-- The nested provider-specific probe (source lines 286-296): the payload is
a dict with a `responses` dict containing a `responses` dict of model
answers; the first non-empty string answer wins. -/
def nested_content : JVal → Option String
  | JVal.obj kvs =>
    match lookupKV "responses" kvs with
    | some (JVal.obj kvs2) =>
      match lookupKV "responses" kvs2 with
      | some (JVal.obj mr) => firstNonEmptyStr mr
      | _ => none
    | _ => none
  | _ => none

/-- Model of Python `x[0]`: head of a non-empty list; anything else raises
(`KeyError`/`TypeError`; a string input would yield its first character but
the following `["message"]` subscript then raises just the same, so both are
modelled as the raised case). -/
def pyIndexZero : JVal → Except String JVal
  | JVal.arr (v :: _) => Except.ok v
  | _ => Except.error "TypeError: not subscriptable at index 0"

/-- Model of Python `x[k]` for a string key: dict lookup, `KeyError` when the
key is missing, `TypeError` on non-dicts. -/
def pyGetItem (v : JVal) (k : String) : Except String JVal :=
  match v with
  | JVal.obj kvs =>
    match lookupKV k kvs with
    | some w => Except.ok w
    | none => Except.error ("KeyError: " ++ k)
  | _ => Except.error "TypeError: not subscriptable"

/-- Model of the extraction block of `_make_alleai_request` (source lines
281-314): the value of the `content` variable after probing the nested
provider shape, then `choices[0]["message"]["content"]`, then the direct
fields `message`, `content`, `response`, `text`; errors are the exceptions
Python attribute/subscript access can raise there. -/
def extract_content (rd : JVal) : Except String (Option JVal) :=
  match nested_content rd with
  | some s => Except.ok (some (JVal.str s))
  | none =>
    match rd with
    | JVal.obj kvs =>
      match lookupTruthy kvs "choices" with
      | some choices =>
        match pyIndexZero choices with
        | Except.ok first =>
          match pyGetItem first "message" with
          | Except.ok msg =>
            match pyGetItem msg "content" with
            | Except.ok content => Except.ok (some content)
            | Except.error e => Except.error e
          | Except.error e => Except.error e
        | Except.error e => Except.error e
      | none =>
        match lookupTruthy kvs "message" with
        | some v => Except.ok (some v)
        | none =>
          match lookupTruthy kvs "content" with
          | some v => Except.ok (some v)
          | none =>
            match lookupTruthy kvs "response" with
            | some v => Except.ok (some v)
            | none =>
              match lookupTruthy kvs "text" with
              | some v => Except.ok (some v)
              | none => Except.ok none
    | _ => Except.error "AttributeError: object has no attribute get"

/-- Model of the error-message recovery for non-success statuses (source
lines 269-274): parse the body, take `error.message` out of it, and fall back
to the raw body text whenever anything along the way fails. -/
def parse_error_message (body : String) : String :=
  match parseJson body with
  | some (JVal.obj kvs) =>
    match lookupKV "error" kvs with
    | some (JVal.obj ekvs) =>
      match lookupKV "message" ekvs with
      | some v => pyStr v
      | none => body
    | some _ => body
    | none => body
  | _ => body

/-- Model of the body of the `try` block of `_make_alleai_request` (source
lines 189-322), given the outcome `net` of the network call: the 402
soft-failure path, the raise for other non-success statuses (`response.ok` in
aiohttp is `status < 400`), body decoding, extraction, the no-content raise,
and final sanitisation.  A non-string extracted content makes
`_clean_response` raise an `AttributeError` at `text.strip()`. -/
def make_request_try (messages : List Message) :
    Except PyErr HttpResp → Except PyErr String
  | Except.error e => Except.error e
  | Except.ok resp =>
    if resp.status = 402 then
      Except.ok (get_fallback_response (last_user_content messages))
    else if 400 ≤ resp.status then
      Except.error (PyErr.exc
        ("AlleAI API error: " ++ toString resp.status ++ " - " ++ parse_error_message resp.body))
    else
      match parseJson resp.body with
      | none => Except.error (PyErr.jsonDecodeError "Expecting value")
      | some rd =>
        match extract_content rd with
        | Except.error e => Except.error (PyErr.exc e)
        | Except.ok oc =>
          match oc with
          | none => Except.error (PyErr.exc "No response content from AlleAI API")
          | some v =>
            if jvTruthy v = false then
              Except.error (PyErr.exc "No response content from AlleAI API")
            else
              match v with
              | JVal.str s => Except.ok (clean_response s)
              | _ => Except.error (PyErr.exc "AttributeError: strip")

/-- Model of `AlleAIService._make_alleai_request` (source lines 180-344): the
missing-key raise sits before the `try` block and propagates; a
`ClientError` or any other `Exception` from the body is converted into the
fallback response for the last user message; a `JSONDecodeError` is re-raised
as `Invalid response from AlleAI API`. -/
def make_alleai_request (api_key : String) (messages : List Message)
    (net : Except PyErr HttpResp) : Except String String :=
  if api_key = "" then Except.error "AlleAI API key not configured"
  else
    match make_request_try messages net with
    | Except.ok s => Except.ok s
    | Except.error (PyErr.clientError _) =>
      Except.ok (get_fallback_response (last_user_content messages))
    | Except.error (PyErr.jsonDecodeError _) =>
      Except.error "Invalid response from AlleAI API"
    | Except.error (PyErr.exc _) =>
      Except.ok (get_fallback_response (last_user_content messages))

/-- Hand-authored template for subjects containing `cashew_leafminer` (source lines 497-510). -/
def cashew_leafminer_template (disease_name : String) : List (String × JVal) :=
[  ("disease_overview",
   JVal.str (disease_name ++ " is a serious pest that affects cashew trees by mining into the leaves, causing significant damage to the foliage and reducing photosynthesis. The larvae create serpentine mines in the leaves, which can lead to defoliation and reduced nut production.")),
  ("immediate_actions",
   JVal.str "1. Inspect all cashew trees for leafminer damage\n2. Remove and destroy heavily infested leaves\n3. Apply neem oil or insecticidal soap to affected areas\n4. Monitor surrounding trees for spread\n5. Consider introducing natural predators"),
  ("treatment_protocols",
   JVal.obj [("organic", JVal.str "Apply neem oil (2-3% solution) every 7-10 days\nUse Bacillus thuringiensis (Bt) spray\nIntroduce beneficial insects like parasitic wasps\nApply garlic or chili pepper spray as deterrent"),
    ("chemical", JVal.str "Use spinosad-based insecticides\nApply abamectin if severe infestation\nUse systemic insecticides as last resort\nAlways follow label instructions"),
    ("application", JVal.str "Apply treatments early morning or evening\nCover both sides of leaves thoroughly\nRepeat applications every 7-10 days\nAvoid spraying during flowering")]),
  ("prevention",
   JVal.str "Plant cashew trees with adequate spacing\nMaintain good air circulation\nUse resistant cashew varieties when available\nPractice regular monitoring\nKeep area clean of fallen leaves\nApply preventive neem treatments"),
  ("monitoring",
   JVal.str "Check leaves weekly for mining damage\nMonitor for new leaf mines\nTrack treatment effectiveness\nDocument infestation levels\nWatch for natural predators"),
  ("cost_effective",
   JVal.str "Use homemade neem oil solutions\nPractice good cultural methods\nJoin local cashew farmer groups\nShare monitoring responsibilities with neighbors\nUse integrated pest management"),
  ("severity_level",
   JVal.str "High"),
  ("professional_help",
   JVal.str "Consult agricultural extension if more than 30% of leaves are affected or if treatments are not working after 2-3 applications")]

/-- Hand-authored template for subjects containing both `leaf` and `miner` (source lines 512-525). -/
def leafminer_template (disease_name : String) : List (String × JVal) :=
[  ("disease_overview",
   JVal.str (disease_name ++ " is a leaf-mining pest that creates tunnels in plant leaves, reducing photosynthesis and plant health. The larvae feed between the upper and lower leaf surfaces, creating visible serpentine mines.")),
  ("immediate_actions",
   JVal.str "1. Remove and destroy heavily mined leaves\n2. Apply neem oil or insecticidal soap\n3. Monitor for new mines\n4. Consider introducing natural predators\n5. Isolate severely affected plants"),
  ("treatment_protocols",
   JVal.obj [("organic", JVal.str "Apply neem oil (2-3% solution)\nUse Bacillus thuringiensis (Bt)\nIntroduce parasitic wasps\nApply garlic or chili pepper spray"),
    ("chemical", JVal.str "Use spinosad-based products\nApply abamectin if needed\nUse systemic insecticides as last resort"),
    ("application", JVal.str "Apply early morning or evening\nCover both leaf surfaces\nRepeat every 7-10 days\nAvoid flowering periods")]),
  ("prevention",
   JVal.str "Maintain good plant spacing\nEnsure proper air circulation\nUse resistant varieties\nRegular monitoring\nClean up fallen leaves"),
  ("monitoring",
   JVal.str "Check leaves weekly for mines\nMonitor treatment effectiveness\nTrack natural predator presence\nDocument damage levels"),
  ("cost_effective",
   JVal.str "Use homemade neem solutions\nPractice cultural controls\nJoin farmer groups\nShare monitoring with neighbors"),
  ("severity_level",
   JVal.str "Moderate"),
  ("professional_help",
   JVal.str "Seek help if more than 25% of leaves are affected or treatments fail after 2-3 applications")]

/-- Generic template parameterised by subject and category (source lines 527-540). -/
def generic_template (disease_name crop_type : String) : List (String × JVal) :=
[  ("disease_overview",
   JVal.str ("General information about " ++ disease_name ++ " affecting " ++ crop_type ++ " plants. This disease can impact plant health and productivity.")),
  ("immediate_actions",
   JVal.str "1. Isolate affected plants\n2. Remove infected parts\n3. Improve air circulation\n4. Avoid overhead watering\n5. Use clean tools"),
  ("treatment_protocols",
   JVal.obj [("organic", JVal.str "Apply neem oil or copper-based fungicides\nUse beneficial microbes\nImprove soil health\nApply garlic or chili pepper spray"),
    ("chemical", JVal.str "Consult with agricultural extension for chemical options\nUse appropriate fungicides or insecticides\nFollow label instructions carefully"),
    ("application", JVal.str "Apply treatments early morning or evening\nCover all affected areas thoroughly\nRepeat as needed\nAvoid flowering periods")]),
  ("prevention",
   JVal.str "Use disease-resistant varieties\nPractice crop rotation\nMaintain proper spacing\nKeep tools clean\nMonitor regularly"),
  ("monitoring",
   JVal.str "Check plants daily for new symptoms\nMonitor treatment effectiveness\nDocument progress\nWatch for natural predators"),
  ("cost_effective",
   JVal.str "Use homemade remedies like baking soda spray\nPractice good cultural methods\nJoin local farming groups\nShare monitoring responsibilities"),
  ("severity_level",
   JVal.str "Moderate"),
  ("professional_help",
   JVal.str "Consult agricultural extension if symptoms worsen or spread rapidly")]

/-- Model of `AlleAIService._get_structured_fallback_recommendations` (source
lines 492-540): substring dispatch on the lowercased subject name, falling
back to the generic template.  The confidence argument is accepted and, as in
the source, unused. -/
def get_structured_fallback_recommendations (disease_name : String) (confidence : String)
    (crop_type : String) : List (String × JVal) :=
  if containsSubS "cashew_leafminer" (pyLowerS disease_name) then
    cashew_leafminer_template disease_name
  else if containsSubS "leaf" (pyLowerS disease_name) && containsSubS "miner" (pyLowerS disease_name) then
    leafminer_template disease_name
  else
    generic_template disease_name crop_type

/-- The eight required top-level fields of a Recommendation (source line
434). -/
def required_fields : List String :=
  ["disease_overview", "immediate_actions", "treatment_protocols", "prevention",
   "monitoring", "cost_effective", "severity_level", "professional_help"]

/-- A decoded value has all eight required fields as dict keys. -/
def hasAllEight (v : JVal) : Bool :=
  match v with
  | JVal.obj kvs => required_fields.all fun f => (lookupKV f kvs).isSome
  | _ => false

/-- The list comprehension `[f for f in required_fields if f not in
recommendations]` (source line 435), with the `TypeError` Python `in` raises
on non-container values. -/
def computeMissing (rec : JVal) : Except String (List String) :=
  required_fields.foldr
    (fun f acc =>
      match pyContains f rec with
      | Except.error e => Except.error e
      | Except.ok b =>
        match acc with
        | Except.error e => Except.error e
        | Except.ok rest => Except.ok (if b then rest else f :: rest))
    (Except.ok [])

/-- The backfill loop `for field in fields: if field in fallback:
recommendations[field] = fallback[field]` on a dict value. -/
def backfill (kvs : List (String × JVal)) (fields : List String)
    (fallback : List (String × JVal)) : List (String × JVal) :=
  fields.foldl
    (fun acc f =>
      match lookupKV f fallback with
      | some v => setKV f v acc
      | none => acc)
    kvs

/-- The backfill loop of the regex-recovery path, `for field in fallback: if
field not in recommendations: recommendations[field] = fallback[field]`
(source lines 465-467): only fields absent from the (evolving) dict are
set. -/
def backfillAbsent (kvs fallback : List (String × JVal)) : List (String × JVal) :=
  fallback.foldl
    (fun acc kv => if (lookupKV kv.1 acc).isSome then acc else setKV kv.1 kv.2 acc)
    kvs

/-- The cache of the service: a Python dict from cache-key strings to the
cached recommendation values. -/
def Cache : Type := List (String × JVal)

/-- The cache key built as subject, confidence and category joined by underscores (source line
399); the confidence is carried as its decimal rendering, which is all the
key construction uses. -/
def cache_key (disease_name confidence crop_type : String) : String :=
  disease_name ++ "_" ++ confidence ++ "_" ++ crop_type

/-- The full-fallback terminal path (source lines 477-480 and 482-490):
synthesise the structured fallback, cache it, return it. -/
def gdrFullFallback (disease_name confidence crop_type key : String) (cache : Cache) :
    JVal × Cache :=
  let fb := JVal.obj (get_structured_fallback_recommendations disease_name confidence crop_type)
  (fb, setKV key fb cache)

/-- The handling of a successfully parsed provider value (source lines
428-449): compute the missing required fields with Python `in` semantics,
backfill them from the structured-fallback template, cache and return; a
`TypeError` from the membership test or from item assignment on a non-dict
value escapes to the outer handler, which caches and returns the full
fallback. -/
def gdrAfterParse (disease_name confidence crop_type key : String) (cache : Cache)
    (rec : JVal) : JVal × Cache :=
  match computeMissing rec with
  | Except.error _ => gdrFullFallback disease_name confidence crop_type key cache
  | Except.ok [] => (rec, setKV key rec cache)
  | Except.ok missing =>
    match rec with
    | JVal.obj kvs =>
      let fb := get_structured_fallback_recommendations disease_name confidence crop_type
      let patched := JVal.obj (backfill kvs missing fb)
      (patched, setKV key patched cache)
    | _ => gdrFullFallback disease_name confidence crop_type key cache

/-- The greedy JSON-candidate extraction `re.search(r'\{[\s\S]*\}', text)`
(source line 456) on character lists: the substring from the first opening
brace to the last closing brace, provided the latter comes after the
former. -/
def extract_json_candidateL (l : List Char) : Option (List Char) :=
  (splitAtChar lbrace l).bind fun p =>
    (splitLastChar rbrace p.2).map fun q => lbrace :: q.1 ++ [rbrace]

/-- The greedy JSON-candidate extraction on strings. -/
def extract_json_candidate (s : String) : Option String :=
  (extract_json_candidateL s.data).map String.mk

/-- The regex-recovery path after a direct parse failure (source lines
451-480): extract the first-brace-to-last-brace candidate, parse it, backfill
every fallback field that is missing, cache and return; if extraction or the
second parse fails (or the backfill raises, caught by the inner handler), fall
through to the full structured fallback. -/
def gdrRegexPath (disease_name confidence crop_type key : String) (cache : Cache)
    (response_content : String) : JVal × Cache :=
  match extract_json_candidate response_content with
  | some cand =>
    match parseJson cand with
    | some (JVal.obj kvs2) =>
      let fb := get_structured_fallback_recommendations disease_name confidence crop_type
      let patched := JVal.obj (backfillAbsent kvs2 fb)
      (patched, setKV key patched cache)
    | _ => gdrFullFallback disease_name confidence crop_type key cache
  | none => gdrFullFallback disease_name confidence crop_type key cache

/-- Model of `AlleAIService.get_disease_recommendations` (source lines
388-490).  `available` is the result of `self.is_available()`; `provider` is
the outcome of the awaited `_make_alleai_request` call (its returned string,
or the exception it raised).  The value returned and the cache after the call
are both produced.  When the service is unavailable the structured fallback
is returned immediately and, as in the source, the cache is not touched. -/
def get_disease_recommendations (available : Bool) (cache : Cache)
    (disease_name confidence crop_type : String) (provider : Except String String) :
    JVal × Cache :=
  if available = false then
    (JVal.obj (get_structured_fallback_recommendations disease_name confidence crop_type), cache)
  else
    let key := cache_key disease_name confidence crop_type
    match lookupKV key cache with
    | some v => (v, cache)
    | none =>
      match provider with
      | Except.error _ => gdrFullFallback disease_name confidence crop_type key cache
      | Except.ok response_content =>
        match parseJson response_content with
        | some rec => gdrAfterParse disease_name confidence crop_type key cache rec
        | none => gdrRegexPath disease_name confidence crop_type key cache response_content

/-- Model of `AlleAIService.is_available` (source lines 41-46): truthiness of
the module-level OpenRouter key, which is a hard-coded non-empty literal in
the source, so the check is on the key string being non-empty. -/
def is_available (openrouter_api_key : String) : Bool :=
  ¬ openrouter_api_key.isEmpty

/-- The system prompt returned by `_get_agricultural_system_prompt` (source
lines 84-114). -/
def agricultural_system_prompt : String :=
  "You are an expert agricultural AI assistant specializing in crop disease management and agricultural best practices. You provide helpful, conversational advice for farmers and agricultural professionals.\n\n**Your Expertise Areas:**\n- Plant disease identification and management\n- Soil health and fertilization\n- Irrigation and watering practices\n- Pest control strategies\n- Crop management and rotation\n- Organic farming methods\n- Climate-smart agriculture\n\n**Response Guidelines:**\n1. **Provide natural, conversational responses** like ChatGPT\n2. **Give practical, actionable advice** that farmers can implement\n3. **Include both organic and conventional solutions** when applicable\n4. **Consider local conditions** and climate factors\n5. **Provide step-by-step instructions** for complex procedures\n6. **Include safety warnings** for chemical treatments\n7. **Suggest monitoring and follow-up actions**\n\n**Important:**\n- Respond naturally and conversationally, not in structured JSON format\n- Use clear, helpful language that\x27s easy to understand\n- Provide specific, actionable advice\n- Be friendly and supportive in your tone\n- Focus on practical solutions that farmers can implement immediately\n- Always return plain text responses, never JSON format\n- For title generation, return only the title as plain text\n- For description generation, return natural paragraphs as plain text"

/-- The message list `chat_with_ai` builds (source lines 553-564): system
prompt, then the conversation history, then the new user turn. -/
def build_chat_messages (user_message : String) (history : List Message) : List Message :=
  Message.mk "system" agricultural_system_prompt :: (history ++ [Message.mk "user" user_message])

/-- Model of `AlleAIService.chat_with_ai` (source lines 542-585).  `ctor` is
the outcome of the `OpenAI(...)` client construction, which happens before
the `try` block; `create` gives, per message list, the outcome of the
completion call together with the `completion.choices[0].message.content`
extraction, which happen inside the `try` block; the unused `models`
parameter is carried as in the source.  An exception inside the `try` block
is replaced by the fallback response for the user message; an exception from
the construction propagates. -/
def chat_with_ai (ctor : Except String Unit)
    (create : List Message → Except String String)
    (user_message : String) (conversation_history : List Message)
    (models : Option (List String)) : Except String String :=
  match ctor with
  | Except.error e => Except.error e
  | Except.ok _ =>
    match create (build_chat_messages user_message conversation_history) with
    | Except.ok content => Except.ok content
    | Except.error _ => Except.ok (get_fallback_response user_message)

/-- The eight required field names joined by spaces; a provider response that
is the JSON string literal of this text exercises the Python substring
semantics of `field not in recommendations`. -/
def all_fields_text : String :=
  "disease_overview immediate_actions treatment_protocols prevention monitoring cost_effective severity_level professional_help"

/-- Characters that are inert for every stage of `_clean_response` other than
the final capitalisation: not whitespace, and none of the structural
characters brace, bracket, double quote, backtick. -/
def plainChar (c : Char) : Bool :=
  !(isPyWs c) &&
    !(c = lbrace || c = rbrace || c = '[' || c = ']' || c = qChar || c = btick)

/-- A string all of whose characters are `plainChar`. -/
def plainString (s : String) : Bool :=
  s.data.all plainChar

/-! ## Helper lemmas -/

theorem dropWhile_eq_self_of (p : Char → Bool) (l : List Char)
    (h : ∀ c ∈ l, p c = false) : l.dropWhile p = l := by
  cases l with
  | nil => rfl
  | cons c r => simp [List.dropWhile_cons, h c (List.mem_cons_self c r)]

theorem pyStripL_eq_self (l : List Char) (h : ∀ c ∈ l, isPyWs c = false) :
    pyStripL l = l := by
  unfold pyStripL
  rw [dropWhile_eq_self_of _ _ h,
      dropWhile_eq_self_of _ _ (fun c hc => h c (List.mem_reverse.mp hc)),
      List.reverse_reverse]

theorem replaceAllAux_eq_self (c0 : Char) (pr rep : List Char) (fuel : Nat) (l : List Char)
    (h : ∀ c ∈ l, ¬ c = c0) : replaceAllAux (c0 :: pr) rep fuel l = l := by
  induction fuel generalizing l with
  | zero => cases l <;> rfl
  | succ f ih =>
    cases l with
    | nil => rfl
    | cons c r =>
      have hc : c0 ≠ c := fun e => h c (List.mem_cons_self c r) e.symm
      have hbe : (c0 == c) = false := beq_eq_false_iff_ne.mpr hc
      have hpre : List.isPrefixOf (c0 :: pr) (c :: r) = false := by
        simp [List.isPrefixOf, hbe]
      simp only [replaceAllAux, hpre, Bool.false_eq_true, if_false]
      rw [ih r (fun x hx => h x (List.mem_cons_of_mem c hx))]

theorem removeSpansAux_eq_self (op cl : Char) (fuel : Nat) (l : List Char)
    (h : ∀ c ∈ l, ¬ c = op) : removeSpansAux op cl fuel l = l := by
  induction fuel generalizing l with
  | zero => cases l <;> rfl
  | succ f ih =>
    cases l with
    | nil => rfl
    | cons c r =>
      simp only [removeSpansAux, if_neg (h c (List.mem_cons_self c r))]
      rw [ih r (fun x hx => h x (List.mem_cons_of_mem c hx))]

theorem removeQuotedPairsAux_eq_self (fuel : Nat) (l : List Char)
    (h : ∀ c ∈ l, ¬ c = qChar) : removeQuotedPairsAux fuel l = l := by
  induction fuel generalizing l with
  | zero => cases l <;> rfl
  | succ f ih =>
    cases l with
    | nil => rfl
    | cons c r =>
      simp only [removeQuotedPairsAux, if_neg (h c (List.mem_cons_self c r))]
      rw [ih r (fun x hx => h x (List.mem_cons_of_mem c hx))]

theorem collapseNewlinesAux_eq_self (fuel : Nat) (l : List Char)
    (h : ∀ c ∈ l, ¬ c = '\n') : collapseNewlinesAux fuel l = l := by
  induction fuel generalizing l with
  | zero => cases l <;> rfl
  | succ f ih =>
    cases l with
    | nil => rfl
    | cons c r =>
      simp only [collapseNewlinesAux, if_neg (h c (List.mem_cons_self c r))]
      rw [ih r (fun x hx => h x (List.mem_cons_of_mem c hx))]

theorem stripLinesAux_eq_self (fuel : Nat) (ls : Bool) (l : List Char)
    (h : ∀ c ∈ l, isPyWs c = false) : stripLinesAux fuel ls l = l := by
  induction fuel generalizing ls l with
  | zero => cases l <;> rfl
  | succ f ih =>
    cases l with
    | nil => rfl
    | cons c r =>
      have hc : ¬ isPyWs c = true := by simp [h c (List.mem_cons_self c r)]
      simp only [stripLinesAux, if_neg hc]
      rw [ih false r (fun x hx => h x (List.mem_cons_of_mem c hx))]

theorem plainChar_spec (c : Char) (h : plainChar c = true) :
    isPyWs c = false ∧ ¬ c = lbrace ∧ ¬ c = rbrace ∧ ¬ c = '[' ∧ ¬ c = ']' ∧
      ¬ c = qChar ∧ ¬ c = btick := by
  simp only [plainChar, Bool.and_eq_true, Bool.not_eq_true', Bool.or_eq_false_iff,
    decide_eq_false_iff_not] at h
  refine ⟨h.1, ?_, ?_, ?_, ?_, ?_, ?_⟩ <;> tauto

theorem plainChar_not_newline (c : Char) (h : plainChar c = true) : ¬ c = '\n' := by
  intro e
  have := (plainChar_spec c h).1
  rw [e] at this
  simp [isPyWs] at this

theorem asciiUpper_plain (c : Char) (h : pyIsLower c = true) :
    plainChar (asciiUpper c) = true ∧ pyIsLower (asciiUpper c) = false := by
  have hm : c ∈ lowerLetters := of_decide_eq_true h
  unfold lowerLetters at hm
  fin_cases hm <;> exact ⟨by decide, by decide⟩

theorem capFirstL_plain (l : List Char) (h : ∀ c ∈ l, plainChar c = true) :
    (∀ c ∈ capFirstL l, plainChar c = true) ∧ capFirstL (capFirstL l) = capFirstL l := by
  cases l with
  | nil => exact ⟨fun c hc => absurd hc (by simp [capFirstL]), rfl⟩
  | cons c r =>
    by_cases hl : pyIsLower c = true
    · have hu := asciiUpper_plain c hl
      constructor
      · intro x hx
        simp only [capFirstL, hl, if_true] at hx
        rcases List.mem_cons.mp hx with rfl | hx
        · exact hu.1
        · exact h x (List.mem_cons_of_mem c hx)
      · simp [capFirstL, hl, hu.2]
    · have hl' : pyIsLower c = false := by
        cases hb : pyIsLower c
        · rfl
        · exact absurd hb hl
      constructor
      · intro x hx
        simp only [capFirstL, hl', Bool.false_eq_true, if_false] at hx
        exact h x hx
      · simp [capFirstL, hl']

theorem clean_responseL_plain (l : List Char) (h : ∀ c ∈ l, plainChar c = true) :
    clean_responseL l = capFirstL l := by
  have hws : ∀ c ∈ l, isPyWs c = false := fun c hc => (plainChar_spec c (h c hc)).1
  cases l with
  | nil => rfl
  | cons c0 r0 =>
    have hbt : ∀ x ∈ c0 :: r0, ¬ x = btick :=
      fun x hx => (plainChar_spec x (h x hx)).2.2.2.2.2.2
    have hrepl1 : replaceAll codeFenceJson [] (c0 :: r0) = c0 :: r0 :=
      replaceAllAux_eq_self btick _ [] _ _ hbt
    have hrepl2 : replaceAll codeFence [] (c0 :: r0) = c0 :: r0 :=
      replaceAllAux_eq_self btick _ [] _ _ hbt
    have hstrip : pyStripL (c0 :: r0) = c0 :: r0 := pyStripL_eq_self _ hws
    have hne : ¬ ((c0 :: r0).head? = some lbrace ∧ (c0 :: r0).getLast? = some rbrace) := by
      intro hand
      have h1 : c0 = lbrace := by
        have := hand.1
        simp only [List.head?] at this
        exact Option.some.inj this
      exact (plainChar_spec c0 (h c0 (List.mem_cons_self c0 r0))).2.1 h1
    have hpost : postCleanL (c0 :: r0) = capFirstL (c0 :: r0) := by
      unfold postCleanL removeBraceSpans removeBracketSpans removeQuotedPairs
        collapseNewlines stripLines
      rw [removeSpansAux_eq_self _ _ _ _
            (fun x hx => (plainChar_spec x (h x hx)).2.1),
          removeSpansAux_eq_self _ _ _ _
            (fun x hx => (plainChar_spec x (h x hx)).2.2.2.1),
          removeQuotedPairsAux_eq_self _ _
            (fun x hx => (plainChar_spec x (h x hx)).2.2.2.2.2.1),
          collapseNewlinesAux_eq_self _ _
            (fun x hx => plainChar_not_newline x (h x hx)),
          stripLinesAux_eq_self _ _ _ hws]
    show clean_responseL (c0 :: r0) = capFirstL (c0 :: r0)
    unfold clean_responseL
    rw [if_neg (by simp : ¬ (c0 :: r0 : List Char).isEmpty = true)]
    simp only [hstrip, hrepl1, hrepl2]
    rw [if_neg hne]
    exact hpost

/-! ## Claims -/

/-- Claim C1 (corrected), counterexample: an exception raised during client
construction, which happens before the `try` block of `chat_with_ai`,
propagates to the caller instead of being replaced by the Fallback Responder
output, so the entry point does not return a text result for every
well-formed input. -/
theorem C1_counterexample_ctor_exception_propagates :
    chat_with_ai (Except.error "OpenAIError") (fun _ => Except.ok "hi")
      "What is wrong with my crops" [] none = Except.error "OpenAIError" := rfl

/-- Claim C1 (amended): whenever client construction succeeds, `chat_with_ai`
returns a text result for every user message, conversation history, optional
model list and outcome of the completion call with its extraction; any
exception arising from the network call or the response extraction is caught
and replaced by the Fallback Responder output for the user message. -/
theorem C1_chat_total_after_construction
    (create : List Message → Except String String) (m : String)
    (h : List Message) (models : Option (List String)) :
    (chat_with_ai (Except.ok ()) create m h models).isOk = true ∧
      (∀ e, create (build_chat_messages m h) = Except.error e →
        chat_with_ai (Except.ok ()) create m h models =
          Except.ok (get_fallback_response m)) := by
  constructor
  · unfold chat_with_ai
    cases create (build_chat_messages m h) <;> rfl
  · intro e he
    unfold chat_with_ai
    rw [he]

/-- Witness for C1: a failing completion call on a concrete message yields
the fallback output. -/
theorem C1_chat_total_after_construction_witness :
    chat_with_ai (Except.ok ()) (fun _ => Except.error "APIConnectionError")
      "Tell me about pests" [] none =
      Except.ok (get_fallback_response "Tell me about pests") :=
  (C1_chat_total_after_construction
    (fun _ => Except.error "APIConnectionError") "Tell me about pests" [] none).2
    "APIConnectionError" rfl

/-- Claim C4 (corrected), counterexample: with the provider unavailable,
`get_disease_recommendations` does not store the synthesized fallback
Recommendation in the cache — after a call on the empty cache, the CacheKey
of the request is still absent, so the second call is not answered from the
cache. -/
theorem C4_counterexample_no_cache_write :
    lookupKV (cache_key "blight" "0.9" "maize")
      (get_disease_recommendations false [] "blight" "0.9" "maize"
        (Except.error "unavailable")).2 = none := rfl

/-- Claim C4 (amended): when the provider is not available,
`get_disease_recommendations` synthesizes the structured fallback
Recommendation and returns it, leaving the cache unchanged; a second call
with the same subject, confidence and category returns an equal
Recommendation because the same fallback is recomputed (still with no
network attempt), not because of a cache hit. -/
theorem C4_unavailable_returns_fallback_uncached (cache : Cache)
    (d conf c : String) (provider provider2 : Except String String) :
    get_disease_recommendations false cache d conf c provider =
      (JVal.obj (get_structured_fallback_recommendations d conf c), cache) ∧
      (get_disease_recommendations false
          (get_disease_recommendations false cache d conf c provider).2
          d conf c provider2).1 =
        (get_disease_recommendations false cache d conf c provider).1 :=
  ⟨rfl, rfl⟩

/-- Claim C6 (confirmed): a provider response with HTTP status 402 makes the
transport call return, without raising and without reaching the extractor,
the Fallback Responder output computed from the last user-role message. -/
theorem C6_status_402_soft_failure (api_key : String) (messages : List Message)
    (body : String) (hk : ¬ api_key = "") :
    make_alleai_request api_key messages (Except.ok (HttpResp.mk 402 body)) =
      Except.ok (get_fallback_response (last_user_content messages)) := by
  unfold make_alleai_request make_request_try
  rw [if_neg hk]
  simp

/-- Witness for C6 at a concrete key, conversation and body. -/
theorem C6_status_402_soft_failure_witness :
    make_alleai_request "alle-key" [Message.mk "user" "My soil is poor"]
      (Except.ok (HttpResp.mk 402 "Payment Required")) =
      Except.ok (get_fallback_response
        (last_user_content [Message.mk "user" "My soil is poor"])) :=
  C6_status_402_soft_failure "alle-key" [Message.mk "user" "My soil is poor"]
    "Payment Required" (by decide)

/-- Claim C7 (corrected), counterexample: a provider response with status 500
does not make the transport call raise to its caller; the call returns a
result — the Fallback Responder output — because the blanket exception
handler of `_make_alleai_request` swallows the transport error it has just
built and raised. -/
theorem C7_counterexample_500_returns_result :
    make_alleai_request "alle-key" [Message.mk "user" "hi"]
      (Except.ok (HttpResp.mk 500 "oops")) =
      Except.ok (get_fallback_response "hi") := rfl

/-- Claim C7 (amended): for every response with status at least 400 other
than 402, the `try` body of the transport call raises a transport error
carrying the status and the error message parsed from the body (the raw body
text when parsing fails), and the call then catches its own error and
returns the Fallback Responder output for the last user-role message rather
than propagating it. -/
theorem C7_error_status_raises_internally_then_falls_back (api_key : String)
    (messages : List Message) (status : Nat) (body : String)
    (hk : ¬ api_key = "") (h4 : 400 ≤ status) (h402 : ¬ status = 402) :
    make_request_try messages (Except.ok (HttpResp.mk status body)) =
      Except.error (PyErr.exc
        ("AlleAI API error: " ++ toString status ++ " - " ++ parse_error_message body)) ∧
      make_alleai_request api_key messages (Except.ok (HttpResp.mk status body)) =
        Except.ok (get_fallback_response (last_user_content messages)) := by
  have h1 : make_request_try messages (Except.ok (HttpResp.mk status body)) =
      Except.error (PyErr.exc
        ("AlleAI API error: " ++ toString status ++ " - " ++ parse_error_message body)) := by
    simp [make_request_try, h402, h4]
  refine ⟨h1, ?_⟩
  unfold make_alleai_request
  rw [if_neg hk, h1]

/-- Witness for C7 at status 500 with a JSON error body. -/
theorem C7_error_status_witness :
    make_request_try [Message.mk "user" "hi"]
        (Except.ok (HttpResp.mk 500 "\x7b\"error\": \x7b\"message\": \"Insufficient credits\"\x7d\x7d")) =
      Except.error (PyErr.exc ("AlleAI API error: " ++ toString 500 ++ " - " ++
        parse_error_message "\x7b\"error\": \x7b\"message\": \"Insufficient credits\"\x7d\x7d")) ∧
      make_alleai_request "alle-key" [Message.mk "user" "hi"]
          (Except.ok (HttpResp.mk 500 "\x7b\"error\": \x7b\"message\": \"Insufficient credits\"\x7d\x7d")) =
        Except.ok (get_fallback_response (last_user_content [Message.mk "user" "hi"])) :=
  C7_error_status_raises_internally_then_falls_back "alle-key" [Message.mk "user" "hi"]
    500 "\x7b\"error\": \x7b\"message\": \"Insufficient credits\"\x7d\x7d"
    (by decide) (by decide) (by decide)

/-- Claim C5 (confirmed): the extractor probes the nested provider shape
first and returns its first non-empty string whenever that shape is present,
in particular on every payload that also carries a top-level `content`
field; and among the direct fields, `message` is probed before `content`
(shown here for payloads without the nested shape and without truthy
`choices`). -/
theorem C5_extractor_precedence :
    (∀ (kvs : List (String × JVal)) (s : String) (v : JVal),
        nested_content (JVal.obj kvs) = some s →
        lookupKV "content" kvs = some v →
        extract_content (JVal.obj kvs) = Except.ok (some (JVal.str s))) ∧
      (∀ (kvs : List (String × JVal)) (v : JVal),
        nested_content (JVal.obj kvs) = none →
        lookupTruthy kvs "choices" = none →
        lookupTruthy kvs "message" = some v →
        extract_content (JVal.obj kvs) = Except.ok (some v)) := by
  constructor
  · intro kvs s v hn _
    unfold extract_content
    rw [hn]
  · intro kvs v hn hc hm
    unfold extract_content
    rw [hn]
    simp only []
    rw [hc, hm]

/-- Witness for C5: a payload carrying both the nested provider shape and a
top-level `content` field yields the nested value. -/
theorem C5_extractor_precedence_witness :
    extract_content (JVal.obj
      [("responses", JVal.obj [("responses", JVal.obj [("gpt-4o", JVal.str "Hello")])]),
       ("content", JVal.str "other")]) = Except.ok (some (JVal.str "Hello")) :=
  C5_extractor_precedence.1
    [("responses", JVal.obj [("responses", JVal.obj [("gpt-4o", JVal.str "Hello")])]),
     ("content", JVal.str "other")] "Hello" (JVal.str "other") rfl rfl

/-- Claim C8 (confirmed): the Fallback Responder is total — it returns
non-empty text for every message — and routes on the lowercased message
through the keyword groups in the fixed source order
disease/soil/water/pest/treatment/prevent/organic, returning the first
canned text of the first matching group and the generic capability overview when no
group matches; a message matching both the disease group and the pest group
therefore gets the disease-group text. -/
theorem C8_fallback_responder_total_and_ordered (m : String) :
    ¬ get_fallback_response m = "" ∧
      (kwDisease (pyLowerS m) = true → get_fallback_response m = disease_response) ∧
      (kwDisease (pyLowerS m) = false → kwSoil (pyLowerS m) = true →
        get_fallback_response m = soil_response) ∧
      (kwDisease (pyLowerS m) = false → kwSoil (pyLowerS m) = false →
        kwWater (pyLowerS m) = true → get_fallback_response m = water_response) ∧
      (kwDisease (pyLowerS m) = false → kwSoil (pyLowerS m) = false →
        kwWater (pyLowerS m) = false → kwPest (pyLowerS m) = true →
        get_fallback_response m = pest_response) ∧
      (kwDisease (pyLowerS m) = false → kwSoil (pyLowerS m) = false →
        kwWater (pyLowerS m) = false → kwPest (pyLowerS m) = false →
        kwTreatment (pyLowerS m) = true → get_fallback_response m = treatment_response) ∧
      (kwDisease (pyLowerS m) = false → kwSoil (pyLowerS m) = false →
        kwWater (pyLowerS m) = false → kwPest (pyLowerS m) = false →
        kwTreatment (pyLowerS m) = false → kwPrevent (pyLowerS m) = true →
        get_fallback_response m = prevent_response) ∧
      (kwDisease (pyLowerS m) = false → kwSoil (pyLowerS m) = false →
        kwWater (pyLowerS m) = false → kwPest (pyLowerS m) = false →
        kwTreatment (pyLowerS m) = false → kwPrevent (pyLowerS m) = false →
        kwOrganic (pyLowerS m) = true → get_fallback_response m = organic_response) ∧
      (kwDisease (pyLowerS m) = false → kwSoil (pyLowerS m) = false →
        kwWater (pyLowerS m) = false → kwPest (pyLowerS m) = false →
        kwTreatment (pyLowerS m) = false → kwPrevent (pyLowerS m) = false →
        kwOrganic (pyLowerS m) = false →
        get_fallback_response m = generic_capability_response) := by
  refine ⟨?_, ?_, ?_, ?_, ?_, ?_, ?_, ?_, ?_⟩
  · unfold get_fallback_response
    by_cases h1 : kwDisease (pyLowerS m) = true
    · simp only [h1, if_true]; decide
    · rw [if_neg h1]
      by_cases h2 : kwSoil (pyLowerS m) = true
      · simp only [h2, if_true]; decide
      · rw [if_neg h2]
        by_cases h3 : kwWater (pyLowerS m) = true
        · simp only [h3, if_true]; decide
        · rw [if_neg h3]
          by_cases h4 : kwPest (pyLowerS m) = true
          · simp only [h4, if_true]; decide
          · rw [if_neg h4]
            by_cases h5 : kwTreatment (pyLowerS m) = true
            · simp only [h5, if_true]; decide
            · rw [if_neg h5]
              by_cases h6 : kwPrevent (pyLowerS m) = true
              · simp only [h6, if_true]; decide
              · rw [if_neg h6]
                by_cases h7 : kwOrganic (pyLowerS m) = true
                · simp only [h7, if_true]; decide
                · rw [if_neg h7]; decide
  · intro h1; simp [get_fallback_response, h1]
  · intro h1 h2; simp [get_fallback_response, h1, h2]
  · intro h1 h2 h3; simp [get_fallback_response, h1, h2, h3]
  · intro h1 h2 h3 h4; simp [get_fallback_response, h1, h2, h3, h4]
  · intro h1 h2 h3 h4 h5; simp [get_fallback_response, h1, h2, h3, h4, h5]
  · intro h1 h2 h3 h4 h5 h6; simp [get_fallback_response, h1, h2, h3, h4, h5, h6]
  · intro h1 h2 h3 h4 h5 h6 h7; simp [get_fallback_response, h1, h2, h3, h4, h5, h6, h7]
  · intro h1 h2 h3 h4 h5 h6 h7; simp [get_fallback_response, h1, h2, h3, h4, h5, h6, h7]

/-- Witness for C8: a message matching both the disease group and the pest
group resolves to the disease-group text, and an unmatched message yields the
generic overview. -/
theorem C8_fallback_responder_witness :
    get_fallback_response "My plants have a disease and pest problem" = disease_response ∧
      get_fallback_response "hi" = generic_capability_response :=
  ⟨(C8_fallback_responder_total_and_ordered
      "My plants have a disease and pest problem").2.1 (by decide),
   (C8_fallback_responder_total_and_ordered "hi").2.2.2.2.2.2.2.2
      (by decide) (by decide) (by decide) (by decide) (by decide) (by decide) (by decide)⟩

/-- Claim C10 (confirmed): a subject containing `cashew_leafminer`
(case-insensitively) selects the pest-specific template with severity level
High, and a subject matching neither that name nor the leaf-and-miner pair
gets the generic template parameterised by subject and category, with all
eight fields populated and severity level Moderate. -/
theorem C10_template_selection (d conf c : String) :
    (containsSubS "cashew_leafminer" (pyLowerS d) = true →
      get_structured_fallback_recommendations d conf c = cashew_leafminer_template d ∧
        lookupKV "severity_level" (get_structured_fallback_recommendations d conf c) =
          some (JVal.str "High")) ∧
      (containsSubS "cashew_leafminer" (pyLowerS d) = false →
        (containsSubS "leaf" (pyLowerS d) && containsSubS "miner" (pyLowerS d)) = false →
        get_structured_fallback_recommendations d conf c = generic_template d c ∧
          hasAllEight (JVal.obj (get_structured_fallback_recommendations d conf c)) = true ∧
          lookupKV "severity_level" (get_structured_fallback_recommendations d conf c) =
            some (JVal.str "Moderate")) := by
  constructor
  · intro h
    have he : get_structured_fallback_recommendations d conf c =
        cashew_leafminer_template d := by
      simp [get_structured_fallback_recommendations, h]
    exact ⟨he, by rw [he]; rfl⟩
  · intro h1 h2
    have he : get_structured_fallback_recommendations d conf c = generic_template d c := by
      simp [get_structured_fallback_recommendations, h1, h2]
    exact ⟨he, by rw [he]; rfl, by rw [he]; rfl⟩

/-- Witness for C10 at the concrete subjects of the spec tests. -/
theorem C10_template_selection_witness :
    get_structured_fallback_recommendations "cashew_leafminer" "0.9" "cashew" =
        cashew_leafminer_template "cashew_leafminer" ∧
      lookupKV "severity_level"
          (get_structured_fallback_recommendations "blight" "0.5" "maize") =
        some (JVal.str "Moderate") :=
  ⟨((C10_template_selection "cashew_leafminer" "0.9" "cashew").1 (by decide)).1,
   ((C10_template_selection "blight" "0.5" "maize").2 (by decide) (by decide)).2.2⟩

theorem splitAtChar_append (t : Char) (pre rest : List Char)
    (h : ∀ c ∈ pre, ¬ c = t) : splitAtChar t (pre ++ t :: rest) = some (pre, rest) := by
  induction pre with
  | nil => simp [splitAtChar]
  | cons c r ih =>
    simp only [List.cons_append, splitAtChar,
      if_neg (h c (List.mem_cons_self c r)), List.append_eq]
    rw [ih (fun x hx => h x (List.mem_cons_of_mem c hx))]
    rfl

theorem takeWhile_append_all (p : Char → Bool) (xs : List Char) (y : Char) (ys : List Char)
    (hx : ∀ c ∈ xs, p c = true) (hy : p y = false) :
    (xs ++ y :: ys).takeWhile p = xs := by
  induction xs with
  | nil => simp [List.takeWhile_cons, hy]
  | cons c r ih =>
    simp [List.takeWhile_cons, hx c (List.mem_cons_self c r),
      ih (fun x hxm => hx x (List.mem_cons_of_mem c hxm))]

theorem dropWhile_append_all (p : Char → Bool) (xs : List Char) (y : Char) (ys : List Char)
    (hx : ∀ c ∈ xs, p c = true) (hy : p y = false) :
    (xs ++ y :: ys).dropWhile p = y :: ys := by
  induction xs with
  | nil => simp [List.dropWhile_cons, hy]
  | cons c r ih =>
    simp [List.dropWhile_cons, hx c (List.mem_cons_self c r),
      ih (fun x hxm => hx x (List.mem_cons_of_mem c hxm))]

theorem splitLastChar_append (t : Char) (mid post : List Char)
    (h : ∀ c ∈ post, ¬ c = t) : splitLastChar t (mid ++ t :: post) = some (mid, post) := by
  unfold splitLastChar
  have hrev : (mid ++ t :: post).reverse = post.reverse ++ t :: mid.reverse := by
    simp
  rw [hrev,
      dropWhile_append_all _ _ _ _
        (fun c hc => by simp [h c (List.mem_reverse.mp hc)]) (by simp),
      takeWhile_append_all _ _ _ _
        (fun c hc => by simp [h c (List.mem_reverse.mp hc)]) (by simp)]
  simp

/-- Claim C9 (confirmed): on parse failure the engine extracts the substring
from the first opening brace to the last closing brace — for any text split
as `pre ++ brace ++ mid ++ brace ++ post` with no opening brace in `pre` and
no closing brace in `post`, the candidate is exactly the bracketed middle —
and on the concrete Sure-example input of the spec this recovers the object
with field `a` equal to 1. -/
theorem C9_greedy_brace_extraction :
    (∀ pre mid post : List Char,
        (∀ ch ∈ pre, ¬ ch = lbrace) → (∀ ch ∈ post, ¬ ch = rbrace) →
        extract_json_candidateL (pre ++ lbrace :: (mid ++ rbrace :: post)) =
          some (lbrace :: mid ++ [rbrace])) ∧
      extract_json_candidate "Sure! \x7b\"a\":1\x7d done" = some "\x7b\"a\":1\x7d" ∧
      parseJson "\x7b\"a\":1\x7d" = some (JVal.obj [("a", JVal.num 1)]) := by
  refine ⟨?_, rfl, rfl⟩
  intro pre mid post h1 h2
  unfold extract_json_candidateL
  rw [splitAtChar_append lbrace pre _ h1, Option.some_bind,
      splitLastChar_append rbrace mid post h2, Option.map_some']

/-- Witness for C9: the general greedy-extraction shape instantiated at the
concrete `Sure!` input. -/
theorem C9_greedy_brace_extraction_witness :
    extract_json_candidateL
        ("Sure! ".data ++ lbrace :: ("\"a\":1".data ++ rbrace :: " done".data)) =
      some (lbrace :: "\"a\":1".data ++ [rbrace]) :=
  C9_greedy_brace_extraction.1 "Sure! ".data "\"a\":1".data " done".data
    (by decide) (by decide)

set_option maxRecDepth 8192 in
/-- Claim C2 (code bug): when the provider returns the JSON string literal of
a text containing all eight required field names as substrings, the direct
parse yields a Python string, the membership checks all succeed through
substring semantics, no backfill runs, and `get_disease_recommendations`
caches and returns that bare string — a value carrying none of the eight
fields, contradicting the all-eight-fields invariant and the declared
`Dict[str, Any]` return annotation of the function. -/
theorem C2_string_payload_escapes_validation :
    (get_disease_recommendations true [] "blight" "0.9" "maize"
        (Except.ok ("\"" ++ all_fields_text ++ "\""))).1 = JVal.str all_fields_text ∧
      hasAllEight (JVal.str all_fields_text) = false ∧
      (get_disease_recommendations true [] "blight" "0.9" "maize"
        (Except.ok ("\"" ++ all_fields_text ++ "\""))).2 =
        [(cache_key "blight" "0.9" "maize", JVal.str all_fields_text)] :=
  ⟨rfl, rfl, rfl⟩

/-- Claim C3 (corrected), counterexample: cleaning a JSON object with a
nested object renders an indented sub-list line, and a second cleaning pass
strips that indentation, so the sanitizer is not idempotent. -/
theorem C3_counterexample_not_idempotent :
    ¬ clean_response (clean_response "\x7b\"a\": \x7b\"b\": \"c\"\x7d\x7d") =
      clean_response "\x7b\"a\": \x7b\"b\": \"c\"\x7d\x7d" := by
  decide

/-- Claim C3 (amended): the sanitizer is idempotent on plain text — for
every string containing no whitespace and none of the structural characters
brace, bracket, double quote and backtick, applying `_clean_response` twice
equals applying it once. -/
theorem C3_clean_response_idempotent_on_plain (x : String)
    (h : plainString x = true) :
    clean_response (clean_response x) = clean_response x := by
  have hl : ∀ c ∈ x.data, plainChar c = true := fun c hc =>
    List.all_eq_true.mp h c hc
  show String.mk (clean_responseL (String.mk (clean_responseL x.data)).data) =
    String.mk (clean_responseL x.data)
  have hdata : (String.mk (clean_responseL x.data)).data = clean_responseL x.data := rfl
  rw [hdata, clean_responseL_plain x.data hl,
      clean_responseL_plain _ (capFirstL_plain x.data hl).1,
      (capFirstL_plain x.data hl).2]

/-- Witness for C3 (amended) on a concrete plain string. -/
theorem C3_clean_response_idempotent_on_plain_witness :
    plainString "hello" = true ∧
      clean_response (clean_response "hello") = clean_response "hello" :=
  ⟨by decide, C3_clean_response_idempotent_on_plain "hello" (by decide)⟩

end Phamiq
